import Mathlib

/-!
Shallow embedding of the ETL transformation logic of `src/etl.py`
(Sparkify data-lake pipeline).

Dataframes are modelled as Lean lists of typed records; nullable JSON
columns are `Option` fields.  Spark operations become list operations:
`where` is `List.filter`, `select` is `List.map` onto a projection
structure, `dropDuplicates` removes exact-duplicate rows,
`toDF(*names)` is a content-preserving repackaging between two record
structures (the rename), `join ... how=inner` is a nested product with a
null-rejecting boolean join condition, and `monotonically_increasing_id`
is a per-row counter (unique, monotonically increasing ids within a
run).  `datetime.fromtimestamp(ts/1000)` is modelled exactly: seconds
are the floor of ts/1000, the sub-second part is ts mod 1000, and the
local-time zone is an explicit offset parameter `tz` (seconds east of
UTC); the calendar breakdown uses the standard civil-from-days
algorithm.  Parquet writes are modelled as updates to a `Store` with an
explicit write mode (the source passes the string mode to
`DataFrame.write.parquet`).
-/

/-- Raw song-catalog record as read from `song_data` JSON
(`spark.read.json`, `src/etl.py` line 51).  Real-valued JSON columns
(duration, latitude, longitude) are modelled as rationals: the pipeline
only projects them, never computes with them. -/
structure SongRecord where
  song_id : Option String
  title : Option String
  artist_id : Option String
  year : Option Int
  duration : Option Rat
  artist_name : Option String
  artist_location : Option String
  artist_latitude : Option Rat
  artist_longitude : Option Rat
deriving DecidableEq

/-- Raw event-log record as read from `log_data` JSON
(`src/etl.py` line 87).  `userId` is a string in the source data
(it is cast to integer only inside the users table build). -/
structure EventRecord where
  userId : Option String
  firstName : Option String
  lastName : Option String
  gender : Option String
  level : Option String
  ts : Option Int
  page : Option String
  song : Option String
  artist : Option String
  sessionId : Option Int
  location : Option String
  userAgent : Option String
deriving DecidableEq

/-- `DataFrame.dropDuplicates()`: remove exact full-row duplicates. -/
def dropDuplicates {α : Type} [DecidableEq α] (l : List α) : List α :=
  l.dedup

/-- `songs_table` row: `df.select('song_id', 'title', 'artist_id', 'year',
'duration')` (`src/etl.py` lines 54-55). -/
structure SongsRow where
  song_id : Option String
  title : Option String
  artist_id : Option String
  year : Option Int
  duration : Option Rat
deriving DecidableEq

def projSong (r : SongRecord) : SongsRow :=
  ⟨r.song_id, r.title, r.artist_id, r.year, r.duration⟩

/-- `songs_table` contents (`src/etl.py` lines 54-55): project then
deduplicate. -/
def songsTable (records : List SongRecord) : List SongsRow :=
  dropDuplicates (records.map projSong)

/-- `artists_table` before the rename: `df.select('artist_id',
'artist_name', 'artist_location', 'artist_latitude',
'artist_longitude')` (`src/etl.py` lines 63-64). -/
structure ArtistRaw where
  artist_id : Option String
  artist_name : Option String
  artist_location : Option String
  artist_latitude : Option Rat
  artist_longitude : Option Rat
deriving DecidableEq

/-- `artists_table` row after `toDF("artist_id", "name", "location",
"latitude", "longitude")` (`src/etl.py` lines 66-67). -/
structure ArtistsRow where
  artist_id : Option String
  name : Option String
  location : Option String
  latitude : Option Rat
  longitude : Option Rat
deriving DecidableEq

def projArtist (r : SongRecord) : ArtistRaw :=
  ⟨r.artist_id, r.artist_name, r.artist_location, r.artist_latitude, r.artist_longitude⟩

/-- `toDF` renames columns without touching row contents. -/
def renameArtist (r : ArtistRaw) : ArtistsRow :=
  ⟨r.artist_id, r.artist_name, r.artist_location, r.artist_latitude, r.artist_longitude⟩

/-- `artists_table` contents (`src/etl.py` lines 63-67): project,
deduplicate, rename. -/
def artistsTable (records : List SongRecord) : List ArtistsRow :=
  (dropDuplicates (records.map projArtist)).map renameArtist

/-- `df_log_data.where(df_log_data.page == 'NextSong')`
(`src/etl.py` line 90).  Spark equality on a null `page` is null,
which the filter rejects, hence the `Option`-level comparison. -/
def filterNextSong (events : List EventRecord) : List EventRecord :=
  events.filter (fun e => e.page == some "NextSong")

/-- Users projection before the rename/cast: `select('userId',
'firstName', 'lastName', 'gender', 'level')` (`src/etl.py` lines 94-95). -/
structure UserProj where
  userId : Option String
  firstName : Option String
  lastName : Option String
  gender : Option String
  level : Option String
deriving DecidableEq

/-- `users_table` row after `toDF` and `cast('integer')`
(`src/etl.py` lines 96-100). -/
structure UsersRow where
  user_id : Option Int
  first_name : Option String
  last_name : Option String
  gender : Option String
  level : Option String
deriving DecidableEq

/-- Value of a non-empty all-digit character list, most significant
digit first; `none` when empty or any character is not a digit. -/
def digitsVal : List Char → Option Nat
  | [] => none
  | cs =>
    if cs.all (fun c => c.isDigit) then
      some (cs.foldl (fun acc c => 10 * acc + (c.toNat - 48)) 0)
    else none

/-- Spark `cast('integer')` on a string column: an optionally signed
decimal integer string parses to its value, any non-parseable string
casts to null instead of failing. -/
def castInteger (s : String) : Option Int :=
  match s.toList with
  | '-' :: cs => (digitsVal cs).map (fun n => -(n : Int))
  | cs => (digitsVal cs).map (fun n => (n : Int))

def projUser (e : EventRecord) : UserProj :=
  ⟨e.userId, e.firstName, e.lastName, e.gender, e.level⟩

/-- `toDF(user_id, first_name, last_name, gender, level)` followed by
`withColumn("user_id", col("user_id").cast('integer'))`
(`src/etl.py` lines 96-100). -/
def renameAndCastUser (r : UserProj) : UsersRow :=
  ⟨r.userId.bind castInteger, r.firstName, r.lastName, r.gender, r.level⟩

/-- The deduplicated users projection (`src/etl.py` lines 93-95):
filter the already NextSong-filtered log to non-null `userId`, project,
deduplicate.  Deduplication happens on the raw string rows, before the
integer cast. -/
def usersDeduped (events : List EventRecord) : List UserProj :=
  dropDuplicates (((filterNextSong events).filter (fun e => e.userId.isSome)).map projUser)

/-- `users_table` contents (`src/etl.py` lines 93-100). -/
def usersTable (events : List EventRecord) : List UsersRow :=
  (usersDeduped events).map renameAndCastUser

/-- Civil calendar date from days since the Unix epoch (proleptic
Gregorian), the standard era-based algorithm; returns
(year, month, day). -/
def civilFromDays (z0 : Int) : Int × Int × Int :=
  let z := z0 + 719468
  let era := z.fdiv 146097
  let doe := z - era * 146097
  let yoe := (doe - doe / 1460 + doe / 36524 - doe / 146096) / 365
  let y := yoe + era * 400
  let doy := doe - (365 * yoe + yoe / 4 - yoe / 100)
  let mp := (5 * doy + 2) / 153
  let d := doy - (153 * mp + 2) / 5 + 1
  let m := mp + (if mp < 10 then 3 else -9)
  (y + (if m ≤ 2 then 1 else 0), m, d)

/-- Days since the Unix epoch of a civil calendar date (inverse of
`civilFromDays`). -/
def daysFromCivil (y0 m d : Int) : Int :=
  let y := y0 - (if m ≤ 2 then 1 else 0)
  let era := y.fdiv 400
  let yoe := y - era * 400
  let doy := (153 * (m + (if m > 2 then -3 else 9)) + 2) / 5 + d - 1
  let doe := yoe * 365 + yoe / 4 - yoe / 100 + doy
  era * 146097 + doe - 719468

/-- A wall-clock timestamp value, the result of casting the
`isoformat()` string produced by `datetime.fromtimestamp` to Spark's
timestamp type (`src/etl.py` lines 110-112). -/
structure DateTime where
  year : Int
  month : Int
  day : Int
  hour : Int
  minute : Int
  second : Int
  millis : Int
deriving DecidableEq

/-- The udf `lambda ts: datetime.fromtimestamp(ts/1000).isoformat()`
followed by `cast(TimestampType())` (`src/etl.py` lines 110-112):
epoch milliseconds to local wall-clock time.  `fromtimestamp` uses the
process's local time zone, modelled as the explicit offset `tz` in
seconds east of UTC; seconds are the floor of `ts / 1000` and the
sub-second part is `ts mod 1000`, carried exactly. -/
def localDateTime (tz ts : Int) : DateTime :=
  let secs := ts.fdiv 1000 + tz
  let ms := ts.fmod 1000
  let days := secs.fdiv 86400
  let sod := secs.fmod 86400
  let c := civilFromDays days
  ⟨c.1, c.2.1, c.2.2, sod / 3600, (sod % 3600) / 60, sod % 60, ms⟩

/-- Spark `dayofweek`: 1 = Sunday .. 7 = Saturday, from days since the
epoch (1970-01-01 was a Thursday). -/
def sparkDayOfWeek (days : Int) : Int :=
  (days + 4).fmod 7 + 1

/-- Spark `weekofyear`: ISO-8601 week number.  The ISO week of a date
is the week of its Thursday, numbered from that Thursday's January 1. -/
def isoWeekOfYear (days : Int) : Int :=
  let thu := days - (days + 3).fmod 7 + 3
  let c := civilFromDays thu
  (thu - daysFromCivil c.1 1 1) / 7 + 1

/-- `time_table` row after the `withColumn` chain and `drop('ts')`
(`src/etl.py` lines 111-123). -/
structure TimeRow where
  start_time : DateTime
  hour : Int
  day : Int
  week : Int
  month : Int
  year : Int
  weekday : Int
deriving DecidableEq

/-- One time-table row from a distinct `ts` value: `start_time` from the
timestamp udf, then `hour`/`dayofmonth`/`weekofyear`/`month`/`year`/
`dayofweek` all derived from `start_time` (`src/etl.py` lines 110-121). -/
def mkTimeRow (tz ts : Int) : TimeRow :=
  let dt := localDateTime tz ts
  let days := daysFromCivil dt.year dt.month dt.day
  ⟨dt, dt.hour, dt.day, isoWeekOfYear days, dt.month, dt.year, sparkDayOfWeek days⟩

/-- `time_table` contents (`src/etl.py` lines 107-123): from the
NextSong-filtered log, keep rows with non-null `ts`, take distinct `ts`
values, derive the timestamp and calendar columns, drop `ts`. -/
def timeTable (tz : Int) (events : List EventRecord) : List TimeRow :=
  (dropDuplicates (((filterNextSong events).filter (fun e => e.ts.isSome)).filterMap
    (fun e => e.ts))).map (mkTimeRow tz)

/-- Null-rejecting Spark column equality used by the join condition
(`src/etl.py` lines 136-137): `null == x` is null, which the inner
join treats as no match. -/
def nullEq (a b : Option String) : Bool :=
  match a, b with
  | some x, some y => x == y
  | _, _ => false

/-- The inner join `df_log_data.join(df_song_data, (song == title) &
(artist == artist_name), how='inner')` (`src/etl.py` lines 135-138);
`df_log_data` is already NextSong-filtered by line 90.  A joined row
carries all columns of both inputs, modelled as the record pair. -/
def songplaysJoined (events : List EventRecord) (songs : List SongRecord) :
    List (EventRecord × SongRecord) :=
  (filterNextSong events).flatMap (fun e =>
    (songs.filter (fun s => nullEq e.song s.title && nullEq e.artist s.artist_name)).map
      (fun s => (e, s)))

/-- The re-filter `where((page == 'NextSong') & ts.isNotNull())`
(`src/etl.py` lines 140-141). -/
def songplaysFiltered (events : List EventRecord) (songs : List SongRecord) :
    List (EventRecord × SongRecord) :=
  (songplaysJoined events songs).filter
    (fun p => p.1.page == some "NextSong" && p.1.ts.isSome)

/-- `songplays_table` row after the final `select` and `toDF` rename
(`src/etl.py` lines 156-162).  `userId` is selected raw (no integer
cast in this table); `timestamp`, `month` and `year` are nullable
derived columns. -/
structure SongplayRow where
  songplay_id : Nat
  start_time : Option DateTime
  user_id : Option String
  level : Option String
  song_id : Option String
  artist_id : Option String
  session_id : Option Int
  location : Option String
  user_agent : Option String
  month : Option Int
  year : Option Int
deriving DecidableEq

/-- One songplays row from a joined record pair and its
`monotonically_increasing_id` value `i`: the timestamp udf on `ts`,
`month`/`year` from the timestamp, and the final column selection
(`src/etl.py` lines 142-162). -/
def mkSongplayRow (tz : Int) (i : Nat) (p : EventRecord × SongRecord) : SongplayRow :=
  let t := p.1.ts.map (localDateTime tz)
  ⟨i, t, p.1.userId, p.1.level, p.2.song_id, p.2.artist_id, p.1.sessionId,
    p.1.location, p.1.userAgent, t.map (fun d => d.month), t.map (fun d => d.year)⟩

/-- `withColumn('songplay_id', monotonically_increasing_id())`
(`src/etl.py` lines 146-147): the engine assigns each row a unique,
monotonically increasing id; modelled as a per-row counter starting at
`i`. -/
def assignIds (tz : Int) (i : Nat) : List (EventRecord × SongRecord) → List SongplayRow
  | [] => []
  | p :: rest => mkSongplayRow tz i p :: assignIds tz (i + 1) rest

/-- `songplays_table` contents (`src/etl.py` lines 135-157): join,
re-filter, derive timestamp, assign `songplay_id`, derive month/year,
select, deduplicate.  Note the `dropDuplicates()` runs after
`songplay_id` has been assigned. -/
def songplaysTable (tz : Int) (events : List EventRecord) (songs : List SongRecord) :
    List SongplayRow :=
  dropDuplicates (assignIds tz 0 (songplaysFiltered events songs))

/-!
Column-name (schema) level model.  Spark tracks a dataframe schema as an
ordered list of column names; the operations of `etl.py` act on it as
follows: `select` replaces the schema with exactly the selected names,
`toDF(*names)` replaces it with the given names, `withColumn` replaces
the named column in place if present and appends it otherwise, `drop`
removes it, and a join concatenates the two schemas.  Filters and
`dropDuplicates` leave the schema unchanged and do not appear.
-/

def selectSchema (_input cols : List String) : List String := cols

def toDFSchema (_input names : List String) : List String := names

def withColumnSchema (input : List String) (c : String) : List String :=
  if c ∈ input then input else input ++ [c]

def dropColumnSchema (input : List String) (c : String) : List String :=
  input.filter (fun x => x ≠ c)

def joinSchema (l r : List String) : List String := l ++ r

/-- Schema of `songs_table` (`src/etl.py` lines 54-55). -/
def songsSchema (input : List String) : List String :=
  selectSchema input ["song_id", "title", "artist_id", "year", "duration"]

/-- Schema of `artists_table` (`src/etl.py` lines 63-67). -/
def artistsSchema (input : List String) : List String :=
  toDFSchema
    (selectSchema input
      ["artist_id", "artist_name", "artist_location", "artist_latitude", "artist_longitude"])
    ["artist_id", "name", "location", "latitude", "longitude"]

/-- Schema of `users_table` (`src/etl.py` lines 94-100): select,
rename, then `withColumn("user_id", ...)` which replaces the existing
column in place. -/
def usersSchema (input : List String) : List String :=
  withColumnSchema
    (toDFSchema (selectSchema input ["userId", "firstName", "lastName", "gender", "level"])
      ["user_id", "first_name", "last_name", "gender", "level"])
    "user_id"

/-- Schema of `time_table` (`src/etl.py` lines 108-123): select `ts`,
append `start_time` and the six calendar columns, then drop `ts`. -/
def timeSchema (input : List String) : List String :=
  dropColumnSchema
    (withColumnSchema
      (withColumnSchema
        (withColumnSchema
          (withColumnSchema
            (withColumnSchema
              (withColumnSchema
                (withColumnSchema (selectSchema input ["ts"]) "start_time")
                "hour")
              "day")
            "week")
          "month")
        "year")
      "weekday")
    "ts"

/-- Schema of `songplays_table` (`src/etl.py` lines 135-162): join,
append `timestamp`, `songplay_id`, `month`, `year`, then select the
eleven output columns and rename them. -/
def songplaysSchema (logInput songInput : List String) : List String :=
  toDFSchema
    (selectSchema
      (withColumnSchema
        (withColumnSchema
          (withColumnSchema
            (withColumnSchema (joinSchema logInput songInput) "timestamp")
            "songplay_id")
          "month")
        "year")
      ["songplay_id", "timestamp", "userId", "level", "song_id", "artist_id",
       "sessionId", "location", "userAgent", "month", "year"])
    ["songplay_id", "start_time", "user_id", "level", "song_id", "artist_id",
     "session_id", "location", "user_agent", "month", "year"]

/-!
Output-store model.  Each table is written with
`DataFrame.write....parquet(path, 'overwrite')`; the store holds the
contents at the five output locations (`none` = nothing written there
yet), and a write in `overwrite` mode fully replaces the previous
contents while `append` mode would add to them.
-/

inductive WriteMode where
  | overwrite
  | append
deriving DecidableEq

/-- A parquet write at one output location. -/
def writeTable {α : Type} (mode : WriteMode) (prev : Option (List α)) (rows : List α) :
    Option (List α) :=
  match mode with
  | .overwrite => some rows
  | .append => some (prev.getD [] ++ rows)

/-- The five output locations of the pipeline
(`output_data + 'songs/...'`, `'artists/...'`, `'users/...'`,
`'time/...'`, `'songplays/...'`). -/
structure Store where
  songsOut : Option (List SongsRow)
  artistsOut : Option (List ArtistsRow)
  usersOut : Option (List UsersRow)
  timeOut : Option (List TimeRow)
  songplaysOut : Option (List SongplayRow)
deriving DecidableEq

/-- `process_song_data` (`src/etl.py` lines 38-71): build and write the
songs and artists tables, both in overwrite mode. -/
def processSongData (songs : List SongRecord) (st : Store) : Store :=
  let st1 := { st with songsOut := writeTable .overwrite st.songsOut (songsTable songs) }
  { st1 with artistsOut := writeTable .overwrite st1.artistsOut (artistsTable songs) }

/-- `process_log_data` (`src/etl.py` lines 74-167): build and write the
users, time and songplays tables, all in overwrite mode. -/
def processLogData (tz : Int) (songs : List SongRecord) (events : List EventRecord)
    (st : Store) : Store :=
  let st1 := { st with usersOut := writeTable .overwrite st.usersOut (usersTable events) }
  let st2 := { st1 with timeOut := writeTable .overwrite st1.timeOut (timeTable tz events) }
  { st2 with songplaysOut :=
      writeTable .overwrite st2.songplaysOut (songplaysTable tz events songs) }

/-- `main` (`src/etl.py` lines 170-177): the full pipeline over fixed
input data. -/
def runPipeline (tz : Int) (songs : List SongRecord) (events : List EventRecord)
    (st : Store) : Store :=
  processLogData tz songs events (processSongData songs st)

/-! Concrete fixture records used to evaluate the table builders. -/

/-- A NextSong play event matching the catalog record `songXY`. -/
def evA : EventRecord :=
  { userId := some "1", firstName := some "Ann", lastName := some "Lee",
    gender := some "F", level := some "free", ts := some 1542124960796,
    page := some "NextSong", song := some "X", artist := some "Y",
    sessionId := some 10, location := some "SF", userAgent := some "UA" }

/-- A catalog record with title `X` by artist `Y`. -/
def songXY : SongRecord :=
  { song_id := some "S1", title := some "X", artist_id := some "A1",
    year := some 2000, duration := some 200, artist_name := some "Y",
    artist_location := some "NY", artist_latitude := none, artist_longitude := none }

/-- An event with a non-null userId on a page other than NextSong. -/
def evHome : EventRecord :=
  { userId := some "8", firstName := some "Bo", lastName := some "Ng",
    gender := some "M", level := some "paid", ts := some 1542124960796,
    page := some "Home", song := none, artist := none,
    sessionId := some 11, location := some "LA", userAgent := some "UA" }

/-- A NextSong event whose userId string is not parseable as an integer. -/
def evBadUser : EventRecord :=
  { evA with userId := some "abc" }

/-- A NextSong event with a null song field. -/
def evNullSong : EventRecord :=
  { evA with song := none }

/-- A NextSong event with userId `1` and level `free`. -/
def evU1 : EventRecord :=
  { evA with song := none, artist := none }

/-- Like `evU1` but with userId `01`: a distinct raw string casting to
the same integer. -/
def evU01 : EventRecord :=
  { evU1 with userId := some "01" }

/-- Like `evU1` but with level `paid`. -/
def evU1paid : EventRecord :=
  { evU1 with level := some "paid" }

/-! Helper lemmas. -/

theorem dropDuplicates_mem {α : Type} [DecidableEq α] {a : α} {l : List α} :
    a ∈ dropDuplicates l ↔ a ∈ l :=
  List.mem_dedup

theorem dropDuplicates_nodup {α : Type} [DecidableEq α] (l : List α) :
    (dropDuplicates l).Nodup :=
  List.nodup_dedup l

theorem dropDuplicates_eq_self {α : Type} [DecidableEq α] {l : List α} (h : l.Nodup) :
    dropDuplicates l = l :=
  List.dedup_eq_self.mpr h

theorem mem_filterNextSong {e : EventRecord} {events : List EventRecord} :
    e ∈ filterNextSong events ↔ e ∈ events ∧ e.page = some "NextSong" := by
  simp [filterNextSong, List.mem_filter]

theorem mem_songplaysJoined {events : List EventRecord} {songs : List SongRecord}
    {e : EventRecord} {s : SongRecord} :
    (e, s) ∈ songplaysJoined events songs ↔
      (e ∈ events ∧ e.page = some "NextSong") ∧ s ∈ songs ∧
        nullEq e.song s.title = true ∧ nullEq e.artist s.artist_name = true := by
  constructor
  · intro h
    obtain ⟨a, ha, hmem⟩ := List.mem_flatMap.mp h
    obtain ⟨s1, hs1, heq⟩ := List.mem_map.mp hmem
    obtain ⟨heqa, heqs⟩ := Prod.mk.injEq .. ▸ heq
    subst heqa; subst heqs
    obtain ⟨hs, hcond⟩ := List.mem_filter.mp hs1
    rw [Bool.and_eq_true] at hcond
    exact ⟨mem_filterNextSong.mp ha, hs, hcond.1, hcond.2⟩
  · rintro ⟨⟨he, hp⟩, hs, h1, h2⟩
    refine List.mem_flatMap.mpr ⟨e, mem_filterNextSong.mpr ⟨he, hp⟩, ?_⟩
    exact List.mem_map.mpr ⟨s, List.mem_filter.mpr ⟨hs, by rw [h1, h2]; rfl⟩, rfl⟩

theorem mem_usersDeduped {events : List EventRecord} {e : EventRecord}
    (he : e ∈ events) (hp : e.page = some "NextSong") (hu : e.userId.isSome = true) :
    projUser e ∈ usersDeduped events := by
  refine dropDuplicates_mem.mpr (List.mem_map.mpr ⟨e, List.mem_filter.mpr ⟨?_, hu⟩, rfl⟩)
  exact mem_filterNextSong.mpr ⟨he, hp⟩

theorem mem_timeTable {tz : Int} {events : List EventRecord} {e : EventRecord} {t : Int}
    (he : e ∈ events) (hp : e.page = some "NextSong") (ht : e.ts = some t) :
    mkTimeRow tz t ∈ timeTable tz events := by
  refine List.mem_map.mpr ⟨t, dropDuplicates_mem.mpr (List.mem_filterMap.mpr ⟨e, ?_, ht⟩), rfl⟩
  exact List.mem_filter.mpr ⟨mem_filterNextSong.mpr ⟨he, hp⟩, by rw [ht]; rfl⟩

theorem assignIds_id_ge (tz : Int) (l : List (EventRecord × SongRecord)) :
    ∀ (i : Nat) (r : SongplayRow), r ∈ assignIds tz i l → i ≤ r.songplay_id := by
  induction l with
  | nil => intro i r h; simp [assignIds] at h
  | cons p rest ih =>
    intro i r h
    rcases List.mem_cons.mp h with h | h
    · subst h; exact Nat.le_refl i
    · exact Nat.le_of_succ_le (ih (i + 1) r h)

theorem assignIds_nodup (tz : Int) (l : List (EventRecord × SongRecord)) :
    ∀ i : Nat, (assignIds tz i l).Nodup := by
  induction l with
  | nil => intro i; simp [assignIds]
  | cons p rest ih =>
    intro i
    refine List.nodup_cons.mpr ⟨fun hmem => ?_, ih (i + 1)⟩
    have h := assignIds_id_ge tz rest (i + 1) _ hmem
    simp only [mkSongplayRow] at h
    omega

theorem assignIds_length (tz : Int) (l : List (EventRecord × SongRecord)) :
    ∀ i : Nat, (assignIds tz i l).length = l.length := by
  induction l with
  | nil => intro i; rfl
  | cons p rest ih => intro i; simp [assignIds, ih (i + 1)]

theorem assignIds_mem (tz : Int) {p : EventRecord × SongRecord} :
    ∀ (l : List (EventRecord × SongRecord)) (i : Nat), p ∈ l →
      ∃ j, mkSongplayRow tz j p ∈ assignIds tz i l := by
  intro l
  induction l with
  | nil => intro i h; simp at h
  | cons q rest ih =>
    intro i h
    rcases List.mem_cons.mp h with h | h
    · exact ⟨i, by rw [h]; exact List.mem_cons_self _ _⟩
    · obtain ⟨j, hj⟩ := ih (i + 1) h
      exact ⟨j, List.mem_cons_of_mem _ hj⟩

theorem songplaysJoined_no_match {events : List EventRecord} {songs : List SongRecord}
    {e : EventRecord}
    (h : ∀ s ∈ songs, ¬(nullEq e.song s.title = true ∧ nullEq e.artist s.artist_name = true)) :
    ∀ s, (e, s) ∉ songplaysJoined events songs := by
  intro s hmem
  have hm := mem_songplaysJoined.mp hmem
  exact h s hm.2.1 ⟨hm.2.2.1, hm.2.2.2⟩

theorem nullEq_none_left (b : Option String) : nullEq none b = false := by
  cases b <;> rfl

theorem nullEq_none_right (a : Option String) : nullEq a none = false := by
  cases a <;> rfl

theorem renameArtist_injective : Function.Injective renameArtist := by
  intro a b h
  cases a; cases b
  simpa [renameArtist, ArtistsRow.mk.injEq, ArtistRaw.mk.injEq] using h

/-! Claim theorems. -/

/-- C1 counterexample: two identical NextSong events matching the same
catalog record yield two songplays rows, not one — `songplay_id` is
assigned before `dropDuplicates`, so the duplicates differ in their id
and are not collapsed. -/
theorem songplays_duplicates_not_collapsed_cex :
    (songplaysTable 0 [evA, evA] [songXY]).length = 2 ∧
      (songplaysTable 0 [evA, evA] [songXY]).length ≠ 1 := by
  constructor <;> decide

/-- C1 (amended): the final `dropDuplicates` of the songplays build
collapses nothing: every surviving joined row carries a distinct
synthetic `songplay_id` assigned before the deduplication, so the
output has exactly one row per joined, filtered input occurrence —
duplicate event records are not collapsed. -/
theorem songplaysTable_length_eq_filtered (tz : Int) (events : List EventRecord)
    (songs : List SongRecord) :
    (songplaysTable tz events songs).length = (songplaysFiltered events songs).length := by
  unfold songplaysTable
  rw [dropDuplicates_eq_self (assignIds_nodup tz _ 0), assignIds_length]

/-- C2 counterexample: an event with a non-null userId whose page is
`Home` contributes no users-table row — the users table is built from
the `page == NextSong`-filtered log (`src/etl.py` line 90 runs before
line 93), so the claim that the page filter does not apply to the users
table is false. -/
theorem users_page_filter_applies_cex :
    evHome.userId.isSome = true ∧ usersTable [evHome] = [] := by
  constructor <;> decide

/-- C2 (amended): the users table does inherit the `page == "NextSong"`
filter applied upstream: every NextSong event with a non-null userId
contributes its projected, renamed, cast row, while a user appearing
only in non-NextSong events contributes no row. -/
theorem usersTable_from_filtered_events (events : List EventRecord) (e : EventRecord)
    (he : e ∈ events) (hp : e.page = some "NextSong") (hu : e.userId.isSome = true) :
    renameAndCastUser (projUser e) ∈ usersTable events :=
  List.mem_map_of_mem _ (mem_usersDeduped he hp hu)

/-- C2 witness: the amended theorem applied to a concrete NextSong
event. -/
theorem usersTable_from_filtered_events_witness :
    renameAndCastUser (projUser evA) ∈ usersTable [evA] :=
  usersTable_from_filtered_events [evA] evA (by decide) (by decide) (by decide)

/-- C7 counterexample: the users table is deduplicated before the
integer cast, so two NextSong events whose raw userId strings `1` and
`01` differ but cast to the same integer produce two identical
full rows in the output — the users output is not duplicate-free. -/
theorem users_output_not_duplicate_free_cex :
    ¬ (usersTable [evU1, evU01]).Nodup := by
  decide

/-- C7 (amended): the songs and artists outputs contain no two
identical full rows, and the users build collapses exact duplicate
projected records to one row (its deduplicated projection is
duplicate-free); however the users dedup runs on the raw string rows
before the integer cast, so the final users output can still contain
identical rows when distinct raw userId strings cast to the same
integer. -/
theorem songs_artists_users_dedup_nodup (songRecords : List SongRecord)
    (events : List EventRecord) :
    (songsTable songRecords).Nodup ∧ (artistsTable songRecords).Nodup ∧
      (usersDeduped events).Nodup := by
  refine ⟨dropDuplicates_nodup _, ?_, dropDuplicates_nodup _⟩
  exact (dropDuplicates_nodup _).map renameArtist_injective

/-- C3: every NextSong event with a non-null epoch-millisecond `ts`
contributes a time-table row whose `start_time` is the local-time
conversion of `ts / 1000` seconds and whose derived year, month, day
and hour columns equal that instant's calendar breakdown; in
particular `ts = 1542124960796` converts (at UTC offset 0) to
2018-11-13 16:02:40.796. -/
theorem timeTable_start_time_conversion (tz : Int) (events : List EventRecord)
    (e : EventRecord) (t : Int) (he : e ∈ events) (hp : e.page = some "NextSong")
    (ht : e.ts = some t) :
    (∃ row ∈ timeTable tz events,
        row.start_time = localDateTime tz t ∧
        row.year = (localDateTime tz t).year ∧
        row.month = (localDateTime tz t).month ∧
        row.day = (localDateTime tz t).day ∧
        row.hour = (localDateTime tz t).hour) ∧
      localDateTime 0 1542124960796 =
        { year := 2018, month := 11, day := 13, hour := 16, minute := 2,
          second := 40, millis := 796 } :=
  ⟨⟨mkTimeRow tz t, mem_timeTable he hp ht, rfl, rfl, rfl, rfl, rfl⟩, by decide⟩

/-- C3 witness: the conversion theorem applied to a concrete event with
`ts = 1542124960796`. -/
theorem timeTable_start_time_conversion_witness :
    (∃ row ∈ timeTable 0 [evA],
        row.start_time = localDateTime 0 1542124960796 ∧
        row.year = (localDateTime 0 1542124960796).year ∧
        row.month = (localDateTime 0 1542124960796).month ∧
        row.day = (localDateTime 0 1542124960796).day ∧
        row.hour = (localDateTime 0 1542124960796).hour) ∧
      localDateTime 0 1542124960796 =
        { year := 2018, month := 11, day := 13, hour := 16, minute := 2,
          second := 40, millis := 796 } :=
  timeTable_start_time_conversion 0 [evA] evA 1542124960796 (by decide) (by decide) (by decide)

/-- C4: an event with page NextSong, non-null ts, and song/artist
matching a catalog record's title/artist_name yields a songplays row
carrying that record's song_id and artist_id (tied to the event by its
userId and sessionId); and an event matching no catalog (title,
artist_name) pair contributes no joined row at all. -/
theorem songplays_join_correctness (tz : Int) (events : List EventRecord)
    (songs : List SongRecord) :
    (∀ e s, e ∈ events → s ∈ songs → e.page = some "NextSong" →
        e.ts.isSome = true → nullEq e.song s.title = true →
        nullEq e.artist s.artist_name = true →
        ∃ r ∈ songplaysTable tz events songs,
          r.song_id = s.song_id ∧ r.artist_id = s.artist_id ∧
          r.user_id = e.userId ∧ r.session_id = e.sessionId) ∧
    (∀ e, (∀ s ∈ songs,
        ¬(nullEq e.song s.title = true ∧ nullEq e.artist s.artist_name = true)) →
        ∀ s, (e, s) ∉ songplaysJoined events songs) := by
  constructor
  · intro e s he hs hp ht h1 h2
    have hj : (e, s) ∈ songplaysJoined events songs :=
      mem_songplaysJoined.mpr ⟨⟨he, hp⟩, hs, h1, h2⟩
    have hf : (e, s) ∈ songplaysFiltered events songs := by
      refine List.mem_filter.mpr ⟨hj, ?_⟩
      rw [Bool.and_eq_true]
      exact ⟨by rw [hp]; rfl, ht⟩
    obtain ⟨j, hmem⟩ := assignIds_mem tz _ 0 hf
    exact ⟨mkSongplayRow tz j (e, s), dropDuplicates_mem.mpr hmem, rfl, rfl, rfl, rfl⟩
  · intro e h
    exact songplaysJoined_no_match h

/-- C4 witness: the join theorem applied to a concrete matching event
and catalog record, and its no-match part applied to a concrete event
with no catalog match. -/
theorem songplays_join_correctness_witness :
    (∃ r ∈ songplaysTable 0 [evA] [songXY],
        r.song_id = songXY.song_id ∧ r.artist_id = songXY.artist_id ∧
        r.user_id = evA.userId ∧ r.session_id = evA.sessionId) ∧
      (evHome, songXY) ∉ songplaysJoined [evHome] [songXY] :=
  ⟨(songplays_join_correctness 0 [evA] [songXY]).1 evA songXY (by decide) (by decide)
      (by decide) (by decide) (by decide) (by decide),
    (songplays_join_correctness 0 [evHome] [songXY]).2 evHome (by decide) songXY⟩

/-- C5: the users build deduplicates exact full rows only — two
NextSong events with the same userId but different levels both survive
into the users table, as two distinct output rows sharing one user_id
(no last-write-wins resolution). -/
theorem users_level_change_keeps_both_rows (events : List EventRecord)
    (e1 e2 : EventRecord) (u : String)
    (h1 : e1 ∈ events) (h2 : e2 ∈ events)
    (hp1 : e1.page = some "NextSong") (hp2 : e2.page = some "NextSong")
    (hu1 : e1.userId = some u) (hu2 : e2.userId = some u)
    (hl : e1.level ≠ e2.level) :
    ∃ r1 r2, r1 ∈ usersTable events ∧ r2 ∈ usersTable events ∧ r1 ≠ r2 ∧
      r1.user_id = r2.user_id ∧ r1.level = e1.level ∧ r2.level = e2.level := by
  refine ⟨renameAndCastUser (projUser e1), renameAndCastUser (projUser e2),
    List.mem_map_of_mem _ (mem_usersDeduped h1 hp1 (by rw [hu1]; rfl)),
    List.mem_map_of_mem _ (mem_usersDeduped h2 hp2 (by rw [hu2]; rfl)), ?_, ?_, rfl, rfl⟩
  · intro hcontra
    exact hl (congrArg UsersRow.level hcontra)
  · show (projUser e1).userId.bind castInteger = (projUser e2).userId.bind castInteger
    simp [projUser, hu1, hu2]

/-- C5 witness: the theorem applied to two concrete events for user `1`
with levels `free` and `paid`. -/
theorem users_level_change_keeps_both_rows_witness :
    ∃ r1 r2, r1 ∈ usersTable [evU1, evU1paid] ∧ r2 ∈ usersTable [evU1, evU1paid] ∧
      r1 ≠ r2 ∧ r1.user_id = r2.user_id ∧
      r1.level = evU1.level ∧ r2.level = evU1paid.level :=
  users_level_change_keeps_both_rows [evU1, evU1paid] evU1 evU1paid "1"
    (by decide) (by decide) (by decide) (by decide) (by decide) (by decide) (by decide)

/-- C6: for every input schema, each output table's column names and
order exactly match the renamed target schema of the data model. -/
theorem output_schemas_match_target (songInput logInput : List String) :
    songsSchema songInput = ["song_id", "title", "artist_id", "year", "duration"] ∧
      artistsSchema songInput = ["artist_id", "name", "location", "latitude", "longitude"] ∧
      usersSchema logInput = ["user_id", "first_name", "last_name", "gender", "level"] ∧
      timeSchema logInput = ["start_time", "hour", "day", "week", "month", "year", "weekday"] ∧
      songplaysSchema logInput songInput =
        ["songplay_id", "start_time", "user_id", "level", "song_id", "artist_id",
         "session_id", "location", "user_agent", "month", "year"] :=
  ⟨rfl, rfl, rfl, rfl, rfl⟩

/-- C8: the pipeline is deterministic in its inputs, and every write is
in overwrite mode, so running the full pipeline a second time against
unchanged input replaces the previous output with identical table
contents (here even the synthetic songplay_id values coincide, which is
stronger than the claimed equivalence up to songplay_id), and the
result does not depend on what was previously in the store. -/
theorem pipeline_rerun_idempotent (tz : Int) (songs : List SongRecord)
    (events : List EventRecord) (st st2 : Store) :
    runPipeline tz songs events (runPipeline tz songs events st) =
        runPipeline tz songs events st ∧
      runPipeline tz songs events st = runPipeline tz songs events st2 :=
  ⟨rfl, rfl⟩

/-- C9: a NextSong event with non-null ts whose song or artist field is
null joins with no catalog record — the null-rejecting join equalities
drop it — so it contributes no joined pair and, alone, an empty
songplays table. -/
theorem songplays_null_song_or_artist_dropped (tz : Int) (events : List EventRecord)
    (songs : List SongRecord) (e : EventRecord)
    (hp : e.page = some "NextSong") (ht : e.ts.isSome = true)
    (hnull : e.song = none ∨ e.artist = none) :
    (∀ s, (e, s) ∉ songplaysJoined events songs) ∧
      songplaysTable tz [e] songs = [] := by
  have hfalse : ∀ s : SongRecord,
      (nullEq e.song s.title && nullEq e.artist s.artist_name) = false := by
    intro s
    rcases hnull with h | h
    · rw [h, nullEq_none_left, Bool.false_and]
    · rw [h, nullEq_none_left, Bool.and_false]
  constructor
  · refine songplaysJoined_no_match (fun s _ hc => ?_)
    have h := hfalse s
    rw [hc.1, hc.2] at h
    simp at h
  · have hj : songplaysJoined [e] songs = [] := by
      simp only [songplaysJoined, filterNextSong]
      rw [show (List.filter (fun e2 => e2.page == some "NextSong") [e]) = [e] by
        simp [hp]]
      simp [hfalse]
    simp [songplaysTable, songplaysFiltered, hj, assignIds, dropDuplicates, List.dedup]

/-- C9 witness: the null-handling theorem applied to a concrete
NextSong event with a null song field. -/
theorem songplays_null_song_or_artist_dropped_witness :
    (evNullSong, songXY) ∉ songplaysJoined [evNullSong] [songXY] ∧
      songplaysTable 0 [evNullSong] [songXY] = [] :=
  ⟨(songplays_null_song_or_artist_dropped 0 [evNullSong] [songXY] evNullSong
      (by decide) (by decide) (Or.inl (by decide))).1 songXY,
    (songplays_null_song_or_artist_dropped 0 [evNullSong] [songXY] evNullSong
      (by decide) (by decide) (Or.inl (by decide))).2⟩

/-- C10: the non-null filter of the users build applies to the raw
userId string before the integer cast, and the cast of a non-parseable
string yields null, so a NextSong event with a non-null but
non-parseable userId contributes a users row whose user_id is null. -/
theorem users_unparseable_userId_yields_null_row (events : List EventRecord)
    (e : EventRecord) (u : String) (he : e ∈ events)
    (hp : e.page = some "NextSong") (hu : e.userId = some u)
    (hc : castInteger u = none) :
    ∃ r ∈ usersTable events,
      r.user_id = none ∧ r.first_name = e.firstName ∧ r.last_name = e.lastName ∧
        r.gender = e.gender ∧ r.level = e.level := by
  refine ⟨renameAndCastUser (projUser e),
    List.mem_map_of_mem _ (mem_usersDeduped he hp (by rw [hu]; rfl)),
    ?_, rfl, rfl, rfl, rfl⟩
  show (projUser e).userId.bind castInteger = none
  simp [projUser, hu, hc]

/-- C10 witness: the theorem applied to a concrete NextSong event with
userId `abc`. -/
theorem users_unparseable_userId_yields_null_row_witness :
    ∃ r ∈ usersTable [evBadUser],
      r.user_id = none ∧ r.first_name = evBadUser.firstName ∧
        r.last_name = evBadUser.lastName ∧ r.gender = evBadUser.gender ∧
        r.level = evBadUser.level :=
  users_unparseable_userId_yields_null_row [evBadUser] evBadUser "abc"
    (by decide) (by decide) (by decide) (by decide)
